import Mathlib

/-!
Verification of the credential-renewal coordinator of the mobile client's
HTTP layer (the axios response interceptor with `isRefreshing`,
`failedQueue`, `processQueue` and the 401 single-flight refresh logic).

The source is embedded as a small-step transition system.  The JavaScript
runtime is single-threaded and cooperative: an async function runs
atomically between `await` points.  The atomic steps of the interceptor
are therefore:

* `arrive401` — a 401 error for a fresh request reaches the response
  interceptor (source lines 226-234): if `isRefreshing` the request is
  pushed onto `failedQueue` as a waiter; otherwise it becomes the leader,
  its config is marked `_retry := true`, `isRefreshing := true`, and the
  refresh POST is issued.
* `settleRenewal` — the refresh call settles: with a token the leader
  proceeds to persist it (`settingToken`); with a malformed body
  (`data?.accessToken` absent) the code throws and the catch block runs
  `processQueue(err)` synchronously; with a rejection the same catch runs.
* `finishSetToken` — `await tokenStorage.setAccessToken` completes; the
  resumption runs `processQueue(null, tok)` (re-issuing every waiter's
  request with the new bearer header), replays the leader's request, and
  the `finally` block resets `isRefreshing` — all in one resumption.
* `finishClear` — `await tokenStorage.clearAccessToken` completes; the
  store is cleared, `router.replace` (session teardown) fires, the leader
  is rejected, and `finally` resets `isRefreshing`.
* `settleReplay` — a re-issued request (`client(cfg)`) settles: success or
  a non-401 error is delivered to the waiting completion; a 401 re-enters
  the interceptor (final if `_retry` is set, otherwise waiter/leader again).

Completion identities (`wid`) model the promise pairs: each `failedQueue`
entry's resolve/reject, the leader's returned promise.  Events are
recorded in the state (`renewCalls`, `teardowns`, `clears`, `settled`,
`replayLog`) so that the claims become statements about the model.
-/

namespace HelpdeskClient

/-- A request descriptor: identity, the `_retry` marker and the
`Authorization` header (source `InternalAxiosRequestConfig & { _retry }`). -/
structure Cfg where
  rid : Nat
  retry : Bool
  auth : Option String
  deriving DecidableEq, Repr

/-- Final errors a caller can observe. -/
inductive Err where
  | unauthorized
  | transport (e : Nat)
  | noToken
  | renewFail (e : Nat)
  deriving DecidableEq, Repr

/-- The outcome delivered to a completion: a response or an error. -/
inductive Outcome where
  | resp (r : Nat)
  | err (e : Err)
  deriving DecidableEq, Repr

/-- How the refresh POST settles: fulfilled with or without an access
token in the body (`data?.accessToken`), or rejected. -/
inductive RenewOutcome where
  | rok (tok : Option String)
  | rerr (e : Nat)
  deriving DecidableEq, Repr

/-- A `failedQueue` entry: the completion identity of the promise returned
to the caller, plus the captured config (source `RetryQueueItem`). -/
structure Waiter where
  wid : Nat
  cfg : Cfg
  deriving DecidableEq, Repr

/-- A re-issued request (`client(cfg)`) in flight, with the completion
that will receive its outcome. -/
structure Replay where
  wid : Nat
  cfg : Cfg
  deriving DecidableEq, Repr

/-- Where the leader's async run currently is: `idle` (no episode),
awaiting the refresh POST, awaiting `setAccessToken`, or awaiting
`clearAccessToken` on the failure path. -/
inductive Phase where
  | idle
  | renewing (lead : Cfg) (dest : Nat)
  | settingToken (lead : Cfg) (dest : Nat) (tok : String)
  | clearing (lead : Cfg) (dest : Nat) (e : Err)
  deriving DecidableEq, Repr

/-- The interceptor's state: the module-level mutables (`isRefreshing`,
`failedQueue`), the token store, the leader phase, in-flight replays, and
the event record. -/
structure St where
  isRefreshing : Bool
  failedQueue : List Waiter
  phase : Phase
  store : Option String
  replays : List Replay
  renewCalls : Nat
  teardowns : Nat
  clears : Nat
  settled : List (Nat × Outcome)
  replayLog : List Cfg
  nextW : Nat
  deriving DecidableEq, Repr

/-- The header value attached to replayed requests (source line 200 and
the request interceptor, line 167). -/
def bearer (tok : String) : String := "Bearer " ++ tok

/-- Source `processQueue(error, token)` (lines 194-208): with an error,
reject every queued waiter with that same error; otherwise overwrite each
waiter's `Authorization` header with the token and re-issue its request
through `client`; in both cases reset `failedQueue` to `[]`. -/
def processQueue (s : St) (error : Option Err) (token : Option String) : St :=
  match error with
  | some e =>
      { s with
        settled := s.settled ++ s.failedQueue.map (fun w => (w.wid, Outcome.err e)),
        failedQueue := [] }
  | none =>
      let upd : Waiter → Replay := fun w =>
        ⟨w.wid, match token with
                | some tok => { w.cfg with auth := some (bearer tok) }
                | none => w.cfg⟩
      { s with
        replays := s.replays ++ s.failedQueue.map upd,
        replayLog := s.replayLog ++ (s.failedQueue.map upd).map Replay.cfg,
        failedQueue := [] }

/-- The 401 branch of the response interceptor (lines 226-234, 263) for a
completion `wid` carrying config `cfg`: an already-retried config gets its
401 back as final; while refreshing, the caller is enqueued as a waiter;
otherwise the caller becomes the leader — its config is marked retried,
`isRefreshing` is set, and the refresh POST is issued (`renewCalls`). -/
def handle401 (s : St) (wid : Nat) (cfg : Cfg) : St :=
  if cfg.retry then
    { s with settled := s.settled ++ [(wid, Outcome.err Err.unauthorized)] }
  else if s.isRefreshing then
    { s with failedQueue := s.failedQueue ++ [⟨wid, cfg⟩] }
  else
    { s with
      isRefreshing := true,
      renewCalls := s.renewCalls + 1,
      phase := Phase.renewing { cfg with retry := true } wid }

/-- A fresh request's 401 reaches the interceptor.  A fresh config never
carries the `_retry` marker; a fresh completion id is allocated for the
promise the interceptor hands back to the caller. -/
def arrive401 (s : St) (rid : Nat) (auth : Option String) : St :=
  handle401 { s with nextW := s.nextW + 1 } s.nextW ⟨rid, false, auth⟩

/-- The refresh POST settles (lines 237-254).  A token moves the leader to
the persist step; a body without `accessToken` throws (line 250) and the
catch block's synchronous part `processQueue(refreshError)` runs, as it
does on a rejection — the leader then awaits `clearAccessToken`. -/
def settleRenewal (s : St) (lead : Cfg) (dest : Nat) (o : RenewOutcome) : St :=
  match o with
  | RenewOutcome.rok (some tok) => { s with phase := Phase.settingToken lead dest tok }
  | RenewOutcome.rok none =>
      { processQueue s (some Err.noToken) none with
        phase := Phase.clearing lead dest Err.noToken }
  | RenewOutcome.rerr e =>
      { processQueue s (some (Err.renewFail e)) none with
        phase := Phase.clearing lead dest (Err.renewFail e) }

/-- `await tokenStorage.setAccessToken` completes (lines 245-248): the
store now holds the new token, `processQueue(null, tok)` re-issues every
waiter's request with the new bearer header, the leader's own request is
replayed, and `finally` resets `isRefreshing` — one atomic resumption. -/
def finishSetToken (s : St) (lead : Cfg) (dest : Nat) (tok : String) : St :=
  let s2 := processQueue { s with store := some tok } none (some tok)
  let lr : Replay := ⟨dest, { lead with auth := some (bearer tok) }⟩
  { s2 with
    replays := s2.replays ++ [lr],
    replayLog := s2.replayLog ++ [lr.cfg],
    isRefreshing := false,
    phase := Phase.idle }

/-- `await tokenStorage.clearAccessToken` completes (lines 255-259): the
store is cleared, `router.replace` (session teardown) fires, the leader's
promise is rejected with the renewal error, and `finally` resets
`isRefreshing`. -/
def finishClear (s : St) (dest : Nat) (e : Err) : St :=
  { s with
    store := none,
    clears := s.clears + 1,
    teardowns := s.teardowns + 1,
    settled := s.settled ++ [(dest, Outcome.err e)],
    isRefreshing := false,
    phase := Phase.idle }

/-- How the environment settles a replayed request. -/
inductive ReplayResult where
  | ok (r : Nat)
  | fail401
  | failOther (e : Nat)
  deriving DecidableEq, Repr

/-- A replayed request settles.  Success or a non-401 error is delivered
to the completion that awaits it (`.then(prom.resolve).catch(prom.reject)`
in `processQueue`, and the leader's `return client(originalRequest)`); a
401 re-enters the response interceptor with the same completion chained. -/
def settleReplay (s : St) (rp : Replay) (res : ReplayResult) : St :=
  match res with
  | ReplayResult.ok r => { s with settled := s.settled ++ [(rp.wid, Outcome.resp r)] }
  | ReplayResult.failOther e =>
      { s with settled := s.settled ++ [(rp.wid, Outcome.err (Err.transport e))] }
  | ReplayResult.fail401 => handle401 s rp.wid rp.cfg

/-- Initial state: no episode, empty queue, an arbitrary stored token. -/
def init (store0 : Option String) : St :=
  ⟨false, [], Phase.idle, store0, [], 0, 0, 0, [], [], 0⟩

/-- One atomic step of the interceptor, scheduled by the environment. -/
inductive Step : St → St → Prop
  | arrive (s : St) (rid : Nat) (auth : Option String) :
      Step s (arrive401 s rid auth)
  | renew (s : St) (lead : Cfg) (dest : Nat) (o : RenewOutcome)
      (h : s.phase = Phase.renewing lead dest) :
      Step s (settleRenewal s lead dest o)
  | setTok (s : St) (lead : Cfg) (dest : Nat) (tok : String)
      (h : s.phase = Phase.settingToken lead dest tok) :
      Step s (finishSetToken s lead dest tok)
  | clear (s : St) (lead : Cfg) (dest : Nat) (e : Err)
      (h : s.phase = Phase.clearing lead dest e) :
      Step s (finishClear s dest e)
  | replay (s : St) (pre post : List Replay) (rp : Replay) (res : ReplayResult)
      (h : s.replays = pre ++ rp :: post) :
      Step s (settleReplay { s with replays := pre ++ post } rp res)

/-- States reachable from some initial state by interceptor steps. -/
inductive Reachable : St → Prop
  | base (store0 : Option String) : Reachable (init store0)
  | step {s t : St} : Reachable s → Step s t → Reachable t

/-- Number of refresh calls currently in flight: the refresh POST is
awaited exactly while the leader is in the `renewing` phase. -/
def inFlightRenewals (s : St) : Nat :=
  match s.phase with
  | Phase.renewing _ _ => 1
  | _ => 0

/-- Completion ids that are still pending: queued waiters, in-flight
replays, and the leader's own completion. -/
def phaseDest : Phase → List Nat
  | Phase.idle => []
  | Phase.renewing _ d => [d]
  | Phase.settingToken _ d _ => [d]
  | Phase.clearing _ d _ => [d]

def pendingDests (s : St) : List Nat :=
  s.failedQueue.map Waiter.wid ++ s.replays.map Replay.wid ++ phaseDest s.phase

/-- Completion ids that have already been resolved or rejected. -/
def settledIds (s : St) : List Nat := s.settled.map Prod.fst

/-- All completion ids, pending and settled. -/
def allDests (s : St) : List Nat := pendingDests s ++ settledIds s

/-! ### Concrete executions used as witnesses and counterexamples

`t1 … t8`: request 1 gets a 401 and becomes the leader; request 7 gets a
401 while the refresh is in flight and is enqueued; the refresh yields
token `t1`; both are replayed; request 7's replay gets a 401 again and —
its config never having been marked `_retry` — becomes the leader of a
second episode with token `t2`, so descriptor 7 is replayed twice.

`u3 … u6`: same start, refresh yields token `t`; the waiter's replay
succeeds with response 200 while the leader's replay fails with a
transport error — two participants of one episode, different outcomes. -/

def lead1 : Cfg := ⟨1, true, none⟩
def t1 : St := arrive401 (init none) 1 none
def t2 : St := arrive401 t1 7 none
def t3 : St := settleRenewal t2 lead1 0 (RenewOutcome.rok (some "t1"))
def rp7 : Replay := ⟨1, ⟨7, false, some (bearer "t1")⟩⟩
def rpL1 : Replay := ⟨0, ⟨1, true, some (bearer "t1")⟩⟩
def t4 : St := finishSetToken t3 lead1 0 "t1"
def t5 : St := settleReplay { t4 with replays := [rpL1] } rp7 ReplayResult.fail401
def t6 : St := settleReplay { t5 with replays := [] } rpL1 (ReplayResult.ok 200)
def lead7 : Cfg := ⟨7, true, some (bearer "t1")⟩
def t7 : St := settleRenewal t6 lead7 1 (RenewOutcome.rok (some "t2"))
def t8 : St := finishSetToken t7 lead7 1 "t2"

def u3 : St := settleRenewal t2 lead1 0 (RenewOutcome.rok (some "t"))
def u4 : St := finishSetToken u3 lead1 0 "t"
def urpW : Replay := ⟨1, ⟨7, false, some (bearer "t")⟩⟩
def urpL : Replay := ⟨0, ⟨1, true, some (bearer "t")⟩⟩
def u5 : St := settleReplay { u4 with replays := [urpL] } urpW (ReplayResult.ok 200)
def u6 : St := settleReplay { u5 with replays := [] } urpL (ReplayResult.failOther 5)

lemma reach_t1 : Reachable t1 :=
  Reachable.step (Reachable.base none) (Step.arrive (init none) 1 none)

lemma reach_t2 : Reachable t2 :=
  Reachable.step reach_t1 (Step.arrive t1 7 none)

lemma reach_t3 : Reachable t3 :=
  Reachable.step reach_t2 (Step.renew t2 lead1 0 (RenewOutcome.rok (some "t1")) rfl)

lemma reach_t4 : Reachable t4 :=
  Reachable.step reach_t3 (Step.setTok t3 lead1 0 "t1" rfl)

lemma reach_t5 : Reachable t5 :=
  Reachable.step reach_t4 (Step.replay t4 [] [rpL1] rp7 ReplayResult.fail401 rfl)

lemma reach_t6 : Reachable t6 :=
  Reachable.step reach_t5 (Step.replay t5 [] [] rpL1 (ReplayResult.ok 200) rfl)

lemma reach_t7 : Reachable t7 :=
  Reachable.step reach_t6 (Step.renew t6 lead7 1 (RenewOutcome.rok (some "t2")) rfl)

lemma reach_t8 : Reachable t8 :=
  Reachable.step reach_t7 (Step.setTok t7 lead7 1 "t2" rfl)

lemma reach_u3 : Reachable u3 :=
  Reachable.step reach_t2 (Step.renew t2 lead1 0 (RenewOutcome.rok (some "t")) rfl)

lemma reach_u4 : Reachable u4 :=
  Reachable.step reach_u3 (Step.setTok u3 lead1 0 "t" rfl)

lemma reach_u5 : Reachable u5 :=
  Reachable.step reach_u4 (Step.replay u4 [] [urpL] urpW (ReplayResult.ok 200) rfl)

lemma reach_u6 : Reachable u6 :=
  Reachable.step reach_u5 (Step.replay u5 [] [] urpL (ReplayResult.failOther 5) rfl)

/-! ### Frame lemmas -/

lemma handle401_frame (s : St) (wid : Nat) (cfg : Cfg) :
    (handle401 s wid cfg).teardowns = s.teardowns ∧
    (handle401 s wid cfg).clears = s.clears ∧
    (handle401 s wid cfg).store = s.store ∧
    (handle401 s wid cfg).nextW = s.nextW ∧
    (handle401 s wid cfg).replays = s.replays := by
  unfold handle401
  split
  · exact ⟨rfl, rfl, rfl, rfl, rfl⟩
  · split <;> exact ⟨rfl, rfl, rfl, rfl, rfl⟩

lemma processQueue_frame (s : St) (error : Option Err) (token : Option String) :
    (processQueue s error token).teardowns = s.teardowns ∧
    (processQueue s error token).clears = s.clears ∧
    (processQueue s error token).store = s.store ∧
    (processQueue s error token).renewCalls = s.renewCalls ∧
    (processQueue s error token).isRefreshing = s.isRefreshing ∧
    (processQueue s error token).phase = s.phase ∧
    (processQueue s error token).nextW = s.nextW := by
  cases error <;> exact ⟨rfl, rfl, rfl, rfl, rfl, rfl, rfl⟩

lemma settleRenewal_frame (s : St) (lead : Cfg) (dest : Nat) (o : RenewOutcome) :
    (settleRenewal s lead dest o).teardowns = s.teardowns ∧
    (settleRenewal s lead dest o).clears = s.clears ∧
    (settleRenewal s lead dest o).renewCalls = s.renewCalls ∧
    (settleRenewal s lead dest o).nextW = s.nextW ∧
    (settleRenewal s lead dest o).isRefreshing = s.isRefreshing := by
  cases o with
  | rok t => cases t <;> exact ⟨rfl, rfl, rfl, rfl, rfl⟩
  | rerr e => exact ⟨rfl, rfl, rfl, rfl, rfl⟩

lemma finishSetToken_frame (s : St) (lead : Cfg) (dest : Nat) (tok : String) :
    (finishSetToken s lead dest tok).teardowns = s.teardowns ∧
    (finishSetToken s lead dest tok).clears = s.clears ∧
    (finishSetToken s lead dest tok).renewCalls = s.renewCalls ∧
    (finishSetToken s lead dest tok).settled = s.settled ∧
    (finishSetToken s lead dest tok).nextW = s.nextW :=
  ⟨rfl, rfl, rfl, rfl, rfl⟩

lemma settleReplay_frame (s : St) (rp : Replay) (res : ReplayResult) :
    (settleReplay s rp res).teardowns = s.teardowns ∧
    (settleReplay s rp res).clears = s.clears ∧
    (settleReplay s rp res).nextW = s.nextW := by
  cases res with
  | ok r => exact ⟨rfl, rfl, rfl⟩
  | fail401 =>
      exact ⟨(handle401_frame s rp.wid rp.cfg).1, (handle401_frame s rp.wid rp.cfg).2.1,
        (handle401_frame s rp.wid rp.cfg).2.2.2.1⟩
  | failOther e => exact ⟨rfl, rfl, rfl⟩

/-! ### Membership helpers -/

lemma reject_mem_settled (s : St) (e : Err) (w : Waiter) (hw : w ∈ s.failedQueue) :
    (w.wid, Outcome.err e) ∈ (processQueue s (some e) none).settled :=
  List.mem_append_right _ (List.mem_map_of_mem _ hw)

lemma waiter_replay_mem (s : St) (lead : Cfg) (dest : Nat) (tok : String)
    (w : Waiter) (hw : w ∈ s.failedQueue) :
    Replay.mk w.wid { w.cfg with auth := some (bearer tok) } ∈
      (finishSetToken s lead dest tok).replays :=
  List.mem_append_left _ (List.mem_append_right _ (List.mem_map_of_mem _ hw))

lemma leader_replay_mem (s : St) (lead : Cfg) (dest : Nat) (tok : String) :
    Replay.mk dest { lead with auth := some (bearer tok) } ∈
      (finishSetToken s lead dest tok).replays :=
  List.mem_append_right _ (List.mem_singleton_self _)

/-- Every entry of the replay log after the success drain is either an old
entry or carries the freshly renewed bearer header. -/
lemma replayLog_auth (s : St) (lead : Cfg) (dest : Nat) (tok : String) :
    ∀ c ∈ (finishSetToken s lead dest tok).replayLog,
      c ∈ s.replayLog ∨ c.auth = some (bearer tok) := by
  intro c hc
  simp only [finishSetToken, processQueue] at hc
  rcases List.mem_append.mp hc with h | h
  · rcases List.mem_append.mp h with h2 | h2
    · exact Or.inl h2
    · rcases List.mem_map.mp h2 with ⟨r, hr, hrc⟩
      rcases List.mem_map.mp hr with ⟨w', _, hw'⟩
      subst hw'
      subst hrc
      exact Or.inr rfl
  · rw [List.mem_singleton] at h
    subst h
    exact Or.inr rfl

/-! ### Claim theorems -/

/-- **C4**: on renewal failure the coordinator rejects every queued waiter
with the same failure, clears the credential store, and invokes session
teardown (`router.replace` to the login entry) exactly once for the
episode, regardless of how many requests were waiting: the waiter
rejections happen in the synchronous part of the catch block
(`processQueue(refreshError)`), the store clear and teardown fire exactly
once when `clearAccessToken` completes, and — last conjunct — no other
step of the system ever changes the teardown or clear counters. -/
theorem c4_failure_cleanup_once (s : St) (lead : Cfg) (dest : Nat) (e : Nat) :
    (∀ w ∈ s.failedQueue,
      (w.wid, Outcome.err (Err.renewFail e)) ∈
        (settleRenewal s lead dest (RenewOutcome.rerr e)).settled) ∧
    (settleRenewal s lead dest (RenewOutcome.rerr e)).failedQueue = [] ∧
    (finishClear (settleRenewal s lead dest (RenewOutcome.rerr e)) dest (Err.renewFail e)).store
      = none ∧
    (finishClear (settleRenewal s lead dest (RenewOutcome.rerr e)) dest (Err.renewFail e)).clears
      = s.clears + 1 ∧
    (finishClear (settleRenewal s lead dest (RenewOutcome.rerr e)) dest
        (Err.renewFail e)).teardowns = s.teardowns + 1 ∧
    (∀ a b : St, Step a b → b.teardowns = a.teardowns ∨
      (∃ lead' dest' e', a.phase = Phase.clearing lead' dest' e' ∧
        b = finishClear a dest' e' ∧ b.teardowns = a.teardowns + 1 ∧
        b.clears = a.clears + 1)) := by
  refine ⟨fun w hw => reject_mem_settled s (Err.renewFail e) w hw, rfl, rfl, rfl, rfl, ?_⟩
  intro a b hs
  cases hs with
  | arrive rid auth =>
      exact Or.inl (handle401_frame { a with nextW := a.nextW + 1 } a.nextW ⟨rid, false, auth⟩).1
  | renew lead' dest' o h => exact Or.inl (settleRenewal_frame a lead' dest' o).1
  | setTok lead' dest' tok h => exact Or.inl (finishSetToken_frame a lead' dest' tok).1
  | clear lead' dest' e' h => exact Or.inr ⟨lead', dest', e', h, rfl, rfl, rfl⟩
  | replay pre post rp res h =>
      exact Or.inl (settleReplay_frame { a with replays := pre ++ post } rp res).1

/-- **C4** witness: instantiated at the concrete refreshing state `t2`
(waiter wid 1 queued) and at a concrete step of the system. -/
theorem c4_failure_cleanup_once_witness :
    ((1 : Nat), Outcome.err (Err.renewFail 9)) ∈
      (settleRenewal t2 lead1 0 (RenewOutcome.rerr 9)).settled ∧
    (settleRenewal t2 lead1 0 (RenewOutcome.rerr 9)).failedQueue = [] ∧
    (finishClear (settleRenewal t2 lead1 0 (RenewOutcome.rerr 9)) 0 (Err.renewFail 9)).store
      = none ∧
    (finishClear (settleRenewal t2 lead1 0 (RenewOutcome.rerr 9)) 0 (Err.renewFail 9)).teardowns
      = t2.teardowns + 1 ∧
    ((arrive401 (init none) 1 none).teardowns = (init none).teardowns ∨
      (∃ lead' dest' e', (init none).phase = Phase.clearing lead' dest' e' ∧
        arrive401 (init none) 1 none = finishClear (init none) dest' e' ∧
        (arrive401 (init none) 1 none).teardowns = (init none).teardowns + 1 ∧
        (arrive401 (init none) 1 none).clears = (init none).clears + 1)) :=
  ⟨(c4_failure_cleanup_once t2 lead1 0 9).1 ⟨1, ⟨7, false, none⟩⟩ (by decide),
   (c4_failure_cleanup_once t2 lead1 0 9).2.1,
   (c4_failure_cleanup_once t2 lead1 0 9).2.2.1,
   (c4_failure_cleanup_once t2 lead1 0 9).2.2.2.2.1,
   (c4_failure_cleanup_once t2 lead1 0 9).2.2.2.2.2 (init none) (arrive401 (init none) 1 none)
     (Step.arrive (init none) 1 none)⟩

/-- **C5**: for every renewal episode and every outcome of the refresh
call — fulfilled with a token, fulfilled without one (the synchronous
`throw` of line 250), or rejected — the `finally` block runs and the
renewal state is reset as the final step of the episode: `isRefreshing`
is `false` and the leader phase is `idle` at episode end, so the
coordinator never remains in the renewing state after an episode ends. -/
theorem c5_state_always_reset (s : St) (lead : Cfg) (dest : Nat) :
    (∀ tok : String,
      (finishSetToken (settleRenewal s lead dest (RenewOutcome.rok (some tok)))
          lead dest tok).isRefreshing = false ∧
      (finishSetToken (settleRenewal s lead dest (RenewOutcome.rok (some tok)))
          lead dest tok).phase = Phase.idle) ∧
    ((finishClear (settleRenewal s lead dest (RenewOutcome.rok none)) dest
        Err.noToken).isRefreshing = false ∧
      (finishClear (settleRenewal s lead dest (RenewOutcome.rok none)) dest
        Err.noToken).phase = Phase.idle) ∧
    (∀ e : Nat,
      (finishClear (settleRenewal s lead dest (RenewOutcome.rerr e)) dest
          (Err.renewFail e)).isRefreshing = false ∧
      (finishClear (settleRenewal s lead dest (RenewOutcome.rerr e)) dest
          (Err.renewFail e)).phase = Phase.idle) :=
  ⟨fun _ => ⟨rfl, rfl⟩, ⟨rfl, rfl⟩, fun _ => ⟨rfl, rfl⟩⟩

/-- **C6**: on renewal success the new credential is persisted to the
store before the waiter queue is drained (the drain step's post-state has
`store = some tok`, the `await setAccessToken` of line 245 having
completed before `processQueue` runs in the same resumption), and every
request replayed by the drain — each waiter's and the leader's — carries
the header `Authorization: Bearer <new credential>`. -/
theorem c6_persist_then_replay_with_bearer (s : St) (lead : Cfg) (dest : Nat) (tok : String) :
    (finishSetToken s lead dest tok).store = some tok ∧
    (∀ w ∈ s.failedQueue,
      Replay.mk w.wid { w.cfg with auth := some (bearer tok) } ∈
        (finishSetToken s lead dest tok).replays) ∧
    Replay.mk dest { lead with auth := some (bearer tok) } ∈
      (finishSetToken s lead dest tok).replays ∧
    (∀ c ∈ (finishSetToken s lead dest tok).replayLog,
      c ∈ s.replayLog ∨ c.auth = some (bearer tok)) ∧
    bearer tok = "Bearer " ++ tok :=
  ⟨rfl, fun w hw => waiter_replay_mem s lead dest tok w hw,
   leader_replay_mem s lead dest tok, replayLog_auth s lead dest tok, rfl⟩

/-- **C6** witness: at state `t2` (waiter `⟨1, rid 7⟩` queued) with token
`t1`, each part is exercised at a concrete input. -/
theorem c6_persist_then_replay_with_bearer_witness :
    (finishSetToken t2 lead1 0 "t1").store = some "t1" ∧
    Replay.mk 1 ⟨7, false, some (bearer "t1")⟩ ∈ (finishSetToken t2 lead1 0 "t1").replays ∧
    Replay.mk 0 ⟨1, true, some (bearer "t1")⟩ ∈ (finishSetToken t2 lead1 0 "t1").replays ∧
    ((⟨7, false, some (bearer "t1")⟩ : Cfg) ∈ t2.replayLog ∨
      (Cfg.auth ⟨7, false, some (bearer "t1")⟩) = some (bearer "t1")) :=
  ⟨(c6_persist_then_replay_with_bearer t2 lead1 0 "t1").1,
   (c6_persist_then_replay_with_bearer t2 lead1 0 "t1").2.1 ⟨1, ⟨7, false, none⟩⟩ (by decide),
   (c6_persist_then_replay_with_bearer t2 lead1 0 "t1").2.2.1,
   (c6_persist_then_replay_with_bearer t2 lead1 0 "t1").2.2.2.1 ⟨7, false, some (bearer "t1")⟩
     (by decide)⟩

/-- **C7**: every 401 that reaches the renewal path (fresh arrivals, whose
descriptors never carry the `_retry` marker, and replays of unmarked
descriptors) while `isRefreshing` is true joins the current episode as a
waiter appended to `failedQueue`; it issues no refresh call
(`renewCalls` unchanged) and starts no second episode (phase unchanged,
`isRefreshing` still true). -/
theorem c7_join_current_episode (s : St) (h : s.isRefreshing = true) :
    (∀ (rid : Nat) (auth : Option String),
      (arrive401 s rid auth).failedQueue = s.failedQueue ++ [⟨s.nextW, ⟨rid, false, auth⟩⟩] ∧
      (arrive401 s rid auth).renewCalls = s.renewCalls ∧
      (arrive401 s rid auth).phase = s.phase ∧
      (arrive401 s rid auth).isRefreshing = true) ∧
    (∀ rp : Replay, rp.cfg.retry = false →
      (settleReplay s rp ReplayResult.fail401).failedQueue
        = s.failedQueue ++ [⟨rp.wid, rp.cfg⟩] ∧
      (settleReplay s rp ReplayResult.fail401).renewCalls = s.renewCalls ∧
      (settleReplay s rp ReplayResult.fail401).phase = s.phase) := by
  constructor
  · intro rid auth
    simp [arrive401, handle401, h]
  · intro rp hr
    simp [settleReplay, handle401, h, hr]

/-- **C7** witness: at the refreshing state `t2`, a fresh 401 (rid 9) and
an unmarked replay 401 both join the queue without a new refresh call. -/
theorem c7_join_current_episode_witness :
    ((arrive401 t2 9 none).failedQueue = t2.failedQueue ++ [⟨t2.nextW, ⟨9, false, none⟩⟩] ∧
      (arrive401 t2 9 none).renewCalls = t2.renewCalls ∧
      (arrive401 t2 9 none).phase = t2.phase ∧
      (arrive401 t2 9 none).isRefreshing = true) ∧
    ((settleReplay t2 ⟨5, ⟨9, false, none⟩⟩ ReplayResult.fail401).failedQueue
        = t2.failedQueue ++ [⟨5, ⟨9, false, none⟩⟩] ∧
      (settleReplay t2 ⟨5, ⟨9, false, none⟩⟩ ReplayResult.fail401).renewCalls = t2.renewCalls ∧
      (settleReplay t2 ⟨5, ⟨9, false, none⟩⟩ ReplayResult.fail401).phase = t2.phase) :=
  ⟨(c7_join_current_episode t2 (by decide)).1 9 none,
   (c7_join_current_episode t2 (by decide)).2 ⟨5, ⟨9, false, none⟩⟩ rfl⟩

/-- **C9**: a refresh call whose HTTP exchange succeeds but whose body
carries no access token (`data?.accessToken` absent — the
`throw new Error("No access token in refresh response")` of line 250) is
treated exactly like a renewal failure: every queued waiter is rejected
with that same error, the queue is emptied, the leader enters the
clearing phase, and completing it clears the store, fires session
teardown once, and rejects the leader. -/
theorem c9_malformed_response_is_failure (s : St) (lead : Cfg) (dest : Nat) :
    (∀ w ∈ s.failedQueue,
      (w.wid, Outcome.err Err.noToken) ∈
        (settleRenewal s lead dest (RenewOutcome.rok none)).settled) ∧
    (settleRenewal s lead dest (RenewOutcome.rok none)).failedQueue = [] ∧
    (settleRenewal s lead dest (RenewOutcome.rok none)).phase
      = Phase.clearing lead dest Err.noToken ∧
    (finishClear (settleRenewal s lead dest (RenewOutcome.rok none)) dest Err.noToken).store
      = none ∧
    (finishClear (settleRenewal s lead dest (RenewOutcome.rok none)) dest Err.noToken).teardowns
      = s.teardowns + 1 ∧
    (finishClear (settleRenewal s lead dest (RenewOutcome.rok none)) dest Err.noToken).clears
      = s.clears + 1 ∧
    (dest, Outcome.err Err.noToken) ∈
      (finishClear (settleRenewal s lead dest (RenewOutcome.rok none)) dest Err.noToken).settled :=
  ⟨fun w hw => reject_mem_settled s Err.noToken w hw, rfl, rfl, rfl, rfl, rfl,
   List.mem_append_right _ (List.mem_singleton_self _)⟩

/-- **C9** witness: instantiated at the refreshing state `t2` with its
queued waiter wid 1. -/
theorem c9_malformed_response_is_failure_witness :
    ((1 : Nat), Outcome.err Err.noToken) ∈
      (settleRenewal t2 lead1 0 (RenewOutcome.rok none)).settled ∧
    (settleRenewal t2 lead1 0 (RenewOutcome.rok none)).failedQueue = [] ∧
    (finishClear (settleRenewal t2 lead1 0 (RenewOutcome.rok none)) 0 Err.noToken).teardowns
      = t2.teardowns + 1 :=
  ⟨(c9_malformed_response_is_failure t2 lead1 0).1 ⟨1, ⟨7, false, none⟩⟩ (by decide),
   (c9_malformed_response_is_failure t2 lead1 0).2.1,
   (c9_malformed_response_is_failure t2 lead1 0).2.2.2.2.1⟩

/-- **C10**: on a successful episode the drain settles no waiter with the
credential itself — `settled` is unchanged by the drain; instead each
waiter's request is re-issued (with the fresh bearer attached) and the
waiter is settled only when its own replay settles, with the replay's
response on success and with the replay's own error on failure.  A waiter
can therefore still end in failure within a successful episode. -/
theorem c10_waiter_settled_with_replay_outcome
    (s : St) (lead : Cfg) (dest : Nat) (tok : String) (rp : Replay) :
    (finishSetToken s lead dest tok).settled = s.settled ∧
    (∀ w ∈ s.failedQueue,
      Replay.mk w.wid { w.cfg with auth := some (bearer tok) } ∈
        (finishSetToken s lead dest tok).replays) ∧
    (∀ r : Nat, (settleReplay s rp (ReplayResult.ok r)).settled
      = s.settled ++ [(rp.wid, Outcome.resp r)]) ∧
    (∀ e : Nat, (settleReplay s rp (ReplayResult.failOther e)).settled
      = s.settled ++ [(rp.wid, Outcome.err (Err.transport e))]) :=
  ⟨rfl, fun w hw => waiter_replay_mem s lead dest tok w hw, fun _ => rfl, fun _ => rfl⟩

/-- **C10** witness: the concrete episode `u3 … u6` — the waiter's replay
outcome (response 200) and the leader replay's transport error are what
get settled. -/
theorem c10_waiter_settled_with_replay_outcome_witness :
    (finishSetToken u3 lead1 0 "t").settled = u3.settled ∧
    Replay.mk 1 ⟨7, false, some (bearer "t")⟩ ∈ (finishSetToken u3 lead1 0 "t").replays ∧
    (settleReplay u5 urpL (ReplayResult.failOther 5)).settled
      = u5.settled ++ [(urpL.wid, Outcome.err (Err.transport 5))] :=
  ⟨(c10_waiter_settled_with_replay_outcome u3 lead1 0 "t" urpL).1,
   (c10_waiter_settled_with_replay_outcome u3 lead1 0 "t" urpL).2.1
     ⟨1, ⟨7, false, none⟩⟩ (by decide),
   (c10_waiter_settled_with_replay_outcome u5 lead1 0 "t" urpL).2.2.2 5⟩

/-- **C2** counterexample: the claim says all participants of an episode
receive an identical outcome, and on success each receives the refreshed
credential.  In the reachable execution `u6` there is exactly one renewal
episode (`renewCalls = 1`) with two participants (leader completion 0,
waiter completion 1); the renewal succeeded, yet the waiter was settled
with its replay's response 200 while the leader was settled with its
replay's transport error — two different outcomes, neither of which is
the credential. -/
theorem c2_identical_outcome_counterexample :
    Reachable u6 ∧ u6.renewCalls = 1 ∧
    (1, Outcome.resp 200) ∈ u6.settled ∧
    (0, Outcome.err (Err.transport 5)) ∈ u6.settled ∧
    Outcome.resp 200 ≠ Outcome.err (Err.transport 5) :=
  ⟨reach_u6, by decide, by decide, by decide, by decide⟩

/-- **C2** as amended: on renewal failure every queued waiter and the
leader are rejected with the same renewal error; on renewal success every
participant's request is re-issued carrying the same refreshed credential
(`Bearer tok`), and each caller then receives its own replay's outcome. -/
theorem c2_uniform_failure_same_credential (s : St) (lead : Cfg) (dest : Nat) :
    (∀ (e : Nat) (w : Waiter), w ∈ s.failedQueue →
      (w.wid, Outcome.err (Err.renewFail e)) ∈
        (settleRenewal s lead dest (RenewOutcome.rerr e)).settled) ∧
    (∀ e : Nat,
      (dest, Outcome.err (Err.renewFail e)) ∈
        (finishClear (settleRenewal s lead dest (RenewOutcome.rerr e)) dest
          (Err.renewFail e)).settled) ∧
    (∀ tok : String,
      (∀ w ∈ s.failedQueue,
        Replay.mk w.wid { w.cfg with auth := some (bearer tok) } ∈
          (finishSetToken s lead dest tok).replays) ∧
      (∀ c ∈ (finishSetToken s lead dest tok).replayLog,
        c ∈ s.replayLog ∨ c.auth = some (bearer tok))) :=
  ⟨fun e w hw => reject_mem_settled s (Err.renewFail e) w hw,
   fun _ => List.mem_append_right _ (List.mem_singleton_self _),
   fun tok => ⟨fun w hw => waiter_replay_mem s lead dest tok w hw,
     replayLog_auth s lead dest tok⟩⟩

/-- **C2** witness for the amended claim, at the refreshing state `t2`. -/
theorem c2_uniform_failure_same_credential_witness :
    ((1 : Nat), Outcome.err (Err.renewFail 4)) ∈
      (settleRenewal t2 lead1 0 (RenewOutcome.rerr 4)).settled ∧
    ((0 : Nat), Outcome.err (Err.renewFail 4)) ∈
      (finishClear (settleRenewal t2 lead1 0 (RenewOutcome.rerr 4)) 0
        (Err.renewFail 4)).settled ∧
    Replay.mk 1 ⟨7, false, some (bearer "t")⟩ ∈ (finishSetToken t2 lead1 0 "t").replays :=
  ⟨(c2_uniform_failure_same_credential t2 lead1 0).1 4 ⟨1, ⟨7, false, none⟩⟩ (by decide),
   (c2_uniform_failure_same_credential t2 lead1 0).2.1 4,
   ((c2_uniform_failure_same_credential t2 lead1 0).2.2 "t").1 ⟨1, ⟨7, false, none⟩⟩ (by decide)⟩

/-- **C3** counterexample: the claim says a descriptor is marked as
retried before it is handed to the renewal path, and that every
descriptor gets at most one renewal-driven retry.  In the source only the
*leader's* descriptor gets `_retry = true` (line 233); a descriptor
enqueued as a waiter stays unmarked.  In the reachable execution
`t1 … t8`, descriptor rid 7 is enqueued unmarked (`retry = false`) in
`t2`; after the first renewal it is replayed, 401s again, becomes the
leader of a second episode, and is replayed a second time: at `t8` the
replay log holds two renewal-driven replays of descriptor 7 and two
refresh calls were made. -/
theorem c3_single_retry_counterexample :
    Reachable t8 ∧ Reachable t2 ∧
    Waiter.mk 1 ⟨7, false, none⟩ ∈ t2.failedQueue ∧
    (t2.failedQueue.map (fun w => w.cfg.retry)) = [false] ∧
    (t8.replayLog.filter (fun c => c.rid == 7)).length = 2 ∧
    t8.renewCalls = 2 :=
  ⟨reach_t8, reach_t2, by decide, by decide, by decide, by decide⟩

/-- **C3** as amended: only the leader's descriptor is marked as retried,
and that happens before its renewal call is issued; a request whose
descriptor already carries the retried marker and fails with the
unauthorized status again gets that failure back as final — no renewal
call, no enqueue, nothing else changes.  A descriptor enqueued as a
waiter is *not* marked, so after a successful renewal its replay may
enter a further renewal episode and be retried again. -/
theorem c3_retry_marker_leader_only (s : St) :
    (∀ (wid : Nat) (cfg : Cfg), cfg.retry = true →
      handle401 s wid cfg
        = { s with settled := s.settled ++ [(wid, Outcome.err Err.unauthorized)] }) ∧
    (∀ (rid : Nat) (auth : Option String), s.isRefreshing = false →
      (arrive401 s rid auth).phase = Phase.renewing ⟨rid, true, auth⟩ s.nextW ∧
      (arrive401 s rid auth).renewCalls = s.renewCalls + 1) ∧
    (∀ (rid : Nat) (auth : Option String), s.isRefreshing = true →
      (arrive401 s rid auth).failedQueue
        = s.failedQueue ++ [⟨s.nextW, ⟨rid, false, auth⟩⟩]) := by
  refine ⟨?_, ?_, ?_⟩
  · intro wid cfg hr
    simp [handle401, hr]
  · intro rid auth h
    constructor <;> simp [arrive401, handle401, h]
  · intro rid auth h
    simp [arrive401, handle401, h]

/-- **C3** witness for the amended claim: a marked descriptor's second 401
is final at the idle state `t4`; a fresh 401 at `init` becomes the marked
leader; a fresh 401 at the refreshing state `t2` is enqueued unmarked. -/
theorem c3_retry_marker_leader_only_witness :
    handle401 t4 0 ⟨1, true, some (bearer "t1")⟩
      = { t4 with settled := t4.settled ++ [(0, Outcome.err Err.unauthorized)] } ∧
    (arrive401 (init none) 1 none).phase = Phase.renewing ⟨1, true, none⟩ (init none).nextW ∧
    (arrive401 t2 9 none).failedQueue = t2.failedQueue ++ [⟨t2.nextW, ⟨9, false, none⟩⟩] :=
  ⟨(c3_retry_marker_leader_only t4).1 0 ⟨1, true, some (bearer "t1")⟩ rfl,
   ((c3_retry_marker_leader_only (init none)).2.1 1 none rfl).1,
   (c3_retry_marker_leader_only t2).2.2 9 none (by decide)⟩


lemma count_single (w x : Nat) : List.count w [x] = if w = x then 1 else 0 := by
  rcases eq_or_ne w x with h | h
  · subst h
    rw [if_pos rfl]
    exact List.count_singleton_self w
  · rw [if_neg h]
    exact List.count_eq_zero_of_not_mem (fun hm => h (List.mem_singleton.mp hm))

lemma map_map_fst_pair (Q : List Waiter) (g : Waiter → Outcome) :
    (Q.map fun w => ((w.wid : Nat), g w)).map Prod.fst = Q.map Waiter.wid := by
  induction Q with
  | nil => rfl
  | cons a l ih => simp [ih]

lemma map_map_wid_replay (Q : List Waiter) (g : Waiter → Cfg) :
    (Q.map fun w => (⟨w.wid, g w⟩ : Replay)).map Replay.wid = Q.map Waiter.wid := by
  induction Q with
  | nil => rfl
  | cons a l ih => simp [ih]

lemma count_arrive401 (s : St) (rid : Nat) (auth : Option String) (w : Nat) :
    List.count w (allDests (arrive401 s rid auth))
      ≤ List.count w (allDests s) + List.count w [s.nextW] := by
  simp only [arrive401, handle401]
  by_cases h : s.isRefreshing <;> by_cases hw : w = s.nextW <;>
    simp [h, hw, allDests, pendingDests, settledIds, phaseDest, List.count_append,
      List.count_cons, count_single] <;> omega

lemma map_fst_comp_pair (Q : List Waiter) (g : Waiter → Outcome) :
    Q.map (Prod.fst ∘ fun x => ((x.wid : Nat), g x)) = Q.map Waiter.wid := by
  induction Q with
  | nil => rfl
  | cons a l ih => simp [ih]

lemma map_wid_comp_replay (Q : List Waiter) (g : Waiter → Cfg) :
    Q.map (Replay.wid ∘ fun x => (⟨x.wid, g x⟩ : Replay)) = Q.map Waiter.wid := by
  induction Q with
  | nil => rfl
  | cons a l ih => simp [ih]

lemma count_settleRenewal (s : St) (lead : Cfg) (dest : Nat) (o : RenewOutcome)
    (h : s.phase = Phase.renewing lead dest) (w : Nat) :
    List.count w (allDests (settleRenewal s lead dest o)) = List.count w (allDests s) := by
  cases o with
  | rok t =>
    cases t with
    | none =>
        by_cases hw : w = dest <;>
          simp [settleRenewal, processQueue, allDests, pendingDests, settledIds, phaseDest, h,
            hw, List.count_append, List.count_cons, count_single, map_map_fst_pair,
            map_fst_comp_pair] <;>
          omega
    | some tok =>
        simp [settleRenewal, allDests, pendingDests, settledIds, phaseDest, h]
  | rerr e =>
      by_cases hw : w = dest <;>
        simp [settleRenewal, processQueue, allDests, pendingDests, settledIds, phaseDest, h,
          hw, List.count_append, List.count_cons, count_single, map_map_fst_pair,
          map_fst_comp_pair] <;>
        omega

lemma count_finishSetToken (s : St) (lead : Cfg) (dest : Nat) (tok : String)
    (h : s.phase = Phase.settingToken lead dest tok) (w : Nat) :
    List.count w (allDests (finishSetToken s lead dest tok)) = List.count w (allDests s) := by
  by_cases hw : w = dest <;>
    simp [finishSetToken, processQueue, allDests, pendingDests, settledIds, phaseDest, h,
      hw, List.count_append, List.count_cons, count_single, map_map_wid_replay,
      map_wid_comp_replay] <;>
    omega

lemma count_finishClear (s : St) (lead : Cfg) (dest : Nat) (e : Err)
    (h : s.phase = Phase.clearing lead dest e) (w : Nat) :
    List.count w (allDests (finishClear s dest e)) = List.count w (allDests s) := by
  by_cases hw : w = dest <;>
    simp [finishClear, allDests, pendingDests, settledIds, phaseDest, h, hw,
      List.count_append, List.count_cons, count_single, map_map_fst_pair,
      map_fst_comp_pair] <;>
    omega

lemma count_settleReplay (s : St) (pre post : List Replay) (rp : Replay) (res : ReplayResult)
    (h : s.replays = pre ++ rp :: post) (w : Nat) :
    List.count w (allDests (settleReplay { s with replays := pre ++ post } rp res))
      ≤ List.count w (allDests s) := by
  cases res with
  | ok r =>
      by_cases hw : w = rp.wid <;>
        simp [settleReplay, allDests, pendingDests, settledIds, phaseDest, h, hw,
          List.count_append, List.count_cons, count_single, map_map_fst_pair,
          map_fst_comp_pair] <;>
        omega
  | failOther e =>
      by_cases hw : w = rp.wid <;>
        simp [settleReplay, allDests, pendingDests, settledIds, phaseDest, h, hw,
          List.count_append, List.count_cons, count_single, map_map_fst_pair,
          map_fst_comp_pair] <;>
        omega
  | fail401 =>
      simp only [settleReplay, handle401]
      by_cases hr : rp.cfg.retry <;> by_cases hb : s.isRefreshing <;>
        by_cases hw : w = rp.wid <;>
        simp [hr, hb, hw, allDests, pendingDests, settledIds, phaseDest, h,
          List.count_append, List.count_cons, count_single, map_map_fst_pair,
          map_fst_comp_pair] <;>
        omega

lemma nextW_arrive (s : St) (rid : Nat) (auth : Option String) :
    (arrive401 s rid auth).nextW = s.nextW + 1 :=
  (handle401_frame { s with nextW := s.nextW + 1 } s.nextW ⟨rid, false, auth⟩).2.2.2.1

/-- Inductive invariant: every completion id occurs at most once among
pending and settled destinations, and ids at or above the allocation
counter do not occur at all. -/
def Inv (s : St) : Prop :=
  ∀ w : Nat, List.count w (allDests s) ≤ 1 ∧ (s.nextW ≤ w → List.count w (allDests s) = 0)

lemma inv_init (store0 : Option String) : Inv (init store0) := by
  intro w
  constructor
  · simp [allDests, pendingDests, settledIds, init, phaseDest]
  · intro _
    simp [allDests, pendingDests, settledIds, init, phaseDest]

lemma inv_step {s t : St} (hI : Inv s) (hs : Step s t) : Inv t := by
  cases hs with
  | arrive rid auth =>
      intro w
      rcases hI w with ⟨h1, h2⟩
      have hc := count_arrive401 s rid auth w
      have hn : (arrive401 s rid auth).nextW = s.nextW + 1 := nextW_arrive s rid auth
      by_cases hw : w = s.nextW
      · have h0 : List.count w (allDests s) = 0 := h2 (by omega)
        have hx : List.count w [s.nextW] = 1 := by rw [count_single, if_pos hw]
        exact ⟨by omega, fun hge => by rw [hn] at hge; omega⟩
      · have hx : List.count w [s.nextW] = 0 := by rw [count_single, if_neg hw]
        refine ⟨by omega, fun hge => ?_⟩
        rw [hn] at hge
        have h0 : List.count w (allDests s) = 0 := h2 (by omega)
        omega
  | renew lead dest o h =>
      intro w
      rcases hI w with ⟨h1, h2⟩
      have hc := count_settleRenewal s lead dest o h w
      have hn : (settleRenewal s lead dest o).nextW = s.nextW :=
        (settleRenewal_frame s lead dest o).2.2.2.1
      exact ⟨by omega, fun hge => by rw [hn] at hge; have := h2 hge; omega⟩
  | setTok lead dest tok h =>
      intro w
      rcases hI w with ⟨h1, h2⟩
      have hc := count_finishSetToken s lead dest tok h w
      have hn : (finishSetToken s lead dest tok).nextW = s.nextW :=
        (finishSetToken_frame s lead dest tok).2.2.2.2
      exact ⟨by omega, fun hge => by rw [hn] at hge; have := h2 hge; omega⟩
  | clear lead dest e h =>
      intro w
      rcases hI w with ⟨h1, h2⟩
      have hc := count_finishClear s lead dest e h w
      exact ⟨by omega, fun hge => by have := h2 hge; omega⟩
  | replay pre post rp res h =>
      intro w
      rcases hI w with ⟨h1, h2⟩
      have hc := count_settleReplay s pre post rp res h w
      have hn : (settleReplay { s with replays := pre ++ post } rp res).nextW = s.nextW :=
        (settleReplay_frame { s with replays := pre ++ post } rp res).2.2
      exact ⟨by omega, fun hge => by rw [hn] at hge; have := h2 hge; omega⟩

lemma reachable_inv {s : St} (h : Reachable s) : Inv s := by
  induction h with
  | base store0 => exact inv_init store0
  | step hr hstep ih => exact inv_step ih hstep

lemma count_allDests_split (s : St) (w : Nat) :
    List.count w (allDests s)
      = List.count w (pendingDests s) + List.count w (settledIds s) := by
  simp [allDests, List.count_append]

/-- **C8**: for every pending request placed in the waiter queue, its
completion is invoked at most once over the whole execution — at every
reachable state each completion id occurs at most once among the
settlement events, and an id that is still pending (queued, replaying, or
the leader's) has not been settled at all, so its eventual settlement is
its first and only one.  Resolve and reject both append to `settled`, so
this rules out double resolution, double rejection, and resolve-plus-
reject alike, under any interleaving of episodes. -/
theorem c8_single_resolution (s : St) (h : Reachable s) (w : Nat) :
    List.count w (settledIds s) ≤ 1 ∧
    (w ∈ pendingDests s → List.count w (settledIds s) = 0) := by
  have hI := reachable_inv h w
  have hsplit := count_allDests_split s w
  refine ⟨by omega, fun hp => ?_⟩
  have hpos : 0 < List.count w (pendingDests s) := List.count_pos_iff.mpr hp
  omega

/-- **C8** witness: at the reachable state `u6`, completion 1 (a waiter of
the episode) is settled exactly once and no longer pending. -/
theorem c8_single_resolution_witness :
    List.count 1 (settledIds u6) ≤ 1 ∧
    (1 ∈ pendingDests u6 → List.count 1 (settledIds u6) = 0) :=
  c8_single_resolution u6 reach_u6 1

/-- **C1**: at every reachable state at most one refresh call is in
flight (the leader phase holds at most one awaited POST); a caller that
observes `isRefreshing = true` is enqueued as a waiter and performs no
refresh call itself (`renewCalls` and the phase are unchanged); and along
any step of the system, the refresh-call counter changes only on an
idle-to-renewing transition, by exactly one. -/
theorem c1_single_flight (s : St) (h : Reachable s) :
    inFlightRenewals s ≤ 1 ∧
    (∀ (a : St) (rid : Nat) (auth : Option String), a.isRefreshing = true →
      (arrive401 a rid auth).renewCalls = a.renewCalls ∧
      (arrive401 a rid auth).phase = a.phase ∧
      (arrive401 a rid auth).failedQueue
        = a.failedQueue ++ [⟨a.nextW, ⟨rid, false, auth⟩⟩]) ∧
    (∀ a b : St, Step a b → b.renewCalls = a.renewCalls ∨
      (a.isRefreshing = false ∧ b.isRefreshing = true ∧
        (∃ lead dest, b.phase = Phase.renewing lead dest) ∧
        b.renewCalls = a.renewCalls + 1)) := by
  refine ⟨?_, ?_, ?_⟩
  · rcases hp : s.phase <;> simp [inFlightRenewals, hp]
  · intro a rid auth ha
    refine ⟨?_, ?_, ?_⟩ <;> simp [arrive401, handle401, ha]
  · intro a b hs
    have hdisj : ∀ (x : St) (wid : Nat) (cfg : Cfg),
        (handle401 x wid cfg).renewCalls = x.renewCalls ∨
        (x.isRefreshing = false ∧ (handle401 x wid cfg).isRefreshing = true ∧
          (∃ lead dest, (handle401 x wid cfg).phase = Phase.renewing lead dest) ∧
          (handle401 x wid cfg).renewCalls = x.renewCalls + 1) := by
      intro x wid cfg
      unfold handle401
      split
      · exact Or.inl rfl
      · split
        · exact Or.inl rfl
        · next hb =>
            right
            refine ⟨?_, rfl, ⟨_, _, rfl⟩, rfl⟩
            simpa using hb
    cases hs with
    | arrive rid auth =>
        rcases hdisj { a with nextW := a.nextW + 1 } a.nextW ⟨rid, false, auth⟩ with
          h1 | ⟨h1, h2, h3, h4⟩
        · exact Or.inl h1
        · exact Or.inr ⟨h1, h2, h3, h4⟩
    | renew lead dest o hph => exact Or.inl (settleRenewal_frame a lead dest o).2.2.1
    | setTok lead dest tok hph => exact Or.inl (finishSetToken_frame a lead dest tok).2.2.1
    | clear lead dest e hph => exact Or.inl rfl
    | replay pre post rp res hph =>
        cases res with
        | ok r => exact Or.inl rfl
        | failOther e => exact Or.inl rfl
        | fail401 =>
            rcases hdisj { a with replays := pre ++ post } rp.wid rp.cfg with
              h1 | ⟨h1, h2, h3, h4⟩
            · exact Or.inl h1
            · exact Or.inr ⟨h1, h2, h3, h4⟩

/-- **C1** witness: at the reachable renewing state `t1`, a concurrent
401 enqueues without issuing a refresh call, and the concrete step from
`init` is an idle-to-renewing transition issuing exactly one. -/
theorem c1_single_flight_witness :
    inFlightRenewals t1 ≤ 1 ∧
    ((arrive401 t1 2 none).renewCalls = t1.renewCalls ∧
      (arrive401 t1 2 none).phase = t1.phase ∧
      (arrive401 t1 2 none).failedQueue = t1.failedQueue ++ [⟨t1.nextW, ⟨2, false, none⟩⟩]) ∧
    ((arrive401 (init none) 3 none).renewCalls = (init none).renewCalls ∨
      ((init none).isRefreshing = false ∧ (arrive401 (init none) 3 none).isRefreshing = true ∧
        (∃ lead dest, (arrive401 (init none) 3 none).phase = Phase.renewing lead dest) ∧
        (arrive401 (init none) 3 none).renewCalls = (init none).renewCalls + 1)) :=
  ⟨(c1_single_flight t1 reach_t1).1,
   (c1_single_flight t1 reach_t1).2.1 t1 2 none (by decide),
   (c1_single_flight t1 reach_t1).2.2 (init none) (arrive401 (init none) 3 none)
     (Step.arrive (init none) 3 none)⟩

end HelpdeskClient
